import Mathlib

/-!
# Verification of the `session_wallet` program

Shallow embedding of `src/programs/session-wallet/src/lib.rs` (an Anchor
program).  Machine integers `u64` are modelled as `Nat` with explicit
`2 ^ 64` bounds where the source uses `checked_add` / `checked_sub`, and
with wrapping modular arithmetic where the source uses the raw `-`
operator (release-mode Rust semantics).  Account identities (`Pubkey`)
are modelled as `Nat`.  Timestamps (`i64 unix_timestamp`) are `Int`;
each instruction receives the clock oracle's value as a `now` parameter
(all `Clock::get()` calls inside one instruction observe the same slot
time).  The external token-transfer CPI moves value between holdings
outside the record and does not touch any `SessionWallet` field, so it
is not part of the record's state transition; a failed instruction
aborts the transaction with an error and commits no state, which the
embedding renders as `Except.error` carrying no successor record.
-/

/-- `u64::MAX + 1`: the modulus of 64-bit unsigned arithmetic. -/
def U64.size : Nat := 2 ^ 64

/-- Rust `u64::checked_add`: `none` exactly when the sum would exceed
`u64::MAX`. -/
def checked_add (a b : Nat) : Option Nat :=
  if a + b < U64.size then some (a + b) else none

/-- Rust `u64::checked_sub`: `none` exactly when the subtraction would
underflow. -/
def checked_sub (a b : Nat) : Option Nat :=
  if b ≤ a then some (a - b) else none

/-- Rust release-mode `u64` subtraction `a - b`: wraps modulo `2 ^ 64`
on underflow. -/
def u64_wrapping_sub (a b : Nat) : Nat :=
  (a % U64.size + (U64.size - b % U64.size)) % U64.size

/-- The error kinds an instruction of the program can fail with.
`SessionClosed`, `InsufficientBalance` and `Overflow` are the program's
own `#[error_code] enum ErrorCode`; `Unauthorized` embeds the account
constraint violation raised by `has_one = authority` on the
`CloseSession` accounts struct (Anchor's `ConstraintHasOne`), which the
specification's taxonomy names `Unauthorized`. -/
inductive ErrorCode where
  | SessionClosed
  | InsufficientBalance
  | Overflow
  | Unauthorized
deriving DecidableEq, Repr

/-- The `#[account] pub struct SessionWallet` record. -/
structure SessionWallet where
  authority : Nat
  session_id : String
  created_at : Int
  last_activity : Int
  initial_balance : Nat
  current_balance : Nat
  is_active : Bool
  bump : Nat
deriving DecidableEq, Repr

/-- Event `SessionCreated` (the `pda` field, an address derived outside
the record's state, is omitted from the embedding). -/
structure SessionCreated where
  session_id : String
  initial_funding : Nat
  timestamp : Int
deriving DecidableEq, Repr

/-- Event `PurchaseExecuted`. -/
structure PurchaseExecuted where
  session_id : String
  service_id : String
  amount : Nat
  remaining_balance : Nat
  timestamp : Int
deriving DecidableEq, Repr

/-- Event `FundsAdded`. -/
structure FundsAdded where
  session_id : String
  amount : Nat
  new_balance : Nat
  timestamp : Int
deriving DecidableEq, Repr

/-- Event `SessionClosed`. -/
structure SessionClosed where
  session_id : String
  refunded_amount : Nat
  total_spent : Nat
  timestamp : Int
deriving DecidableEq, Repr

/-- `initialize_session`: allocates the record, setting every field from
the caller's inputs and the clock; `initial_balance` and
`current_balance` both start at `initial_funding`, `is_active` at
`true`. -/
def initialize_session (authority : Nat) (session_id : String)
    (initial_funding : Nat) (now : Int) (bump : Nat) :
    SessionWallet × SessionCreated :=
  ({ authority := authority
     session_id := session_id
     created_at := now
     last_activity := now
     initial_balance := initial_funding
     current_balance := initial_funding
     is_active := true
     bump := bump },
   { session_id := session_id
     initial_funding := initial_funding
     timestamp := now })

/-- `execute_purchase`: requires `is_active` (else `SessionClosed`) and
`current_balance >= amount` (else `InsufficientBalance`), then performs
the checked subtraction (`Overflow` on `None`), updates `last_activity`,
and emits `PurchaseExecuted` with the new balance. -/
def execute_purchase (w : SessionWallet) (amount : Nat)
    (service_id : String) (now : Int) :
    Except ErrorCode (SessionWallet × PurchaseExecuted) :=
  if w.is_active then
    if amount ≤ w.current_balance then
      match checked_sub w.current_balance amount with
      | none => .error .Overflow
      | some b =>
          .ok ({ w with current_balance := b, last_activity := now },
               { session_id := w.session_id
                 service_id := service_id
                 amount := amount
                 remaining_balance := b
                 timestamp := now })
    else .error .InsufficientBalance
  else .error .SessionClosed

/-- `fund_session`: requires `is_active` (else `SessionClosed`), then
performs the checked addition (`Overflow` on `None`), updates
`last_activity`, and emits `FundsAdded` with the new balance.  No
identity constraint is placed on the funder. -/
def fund_session (w : SessionWallet) (amount : Nat) (now : Int) :
    Except ErrorCode (SessionWallet × FundsAdded) :=
  if w.is_active then
    match checked_add w.current_balance amount with
    | none => .error .Overflow
    | some b =>
        .ok ({ w with current_balance := b, last_activity := now },
             { session_id := w.session_id
               amount := amount
               new_balance := b
               timestamp := now })
  else .error .SessionClosed

/-- `close_session` instruction handler (the function body at lines
142-182): requires `is_active` (else `SessionClosed`), refunds the
remaining balance through the external transfer service, sets
`is_active := false` and `current_balance := 0`, and emits
`SessionClosed` whose `total_spent` is the raw Rust subtraction
`initial_balance - remaining_balance` (wrapping `u64` semantics).
`last_activity` is not assigned by this handler. -/
def close_session (w : SessionWallet) (now : Int) :
    Except ErrorCode (SessionWallet × SessionClosed) :=
  if w.is_active then
    let remaining_balance := w.current_balance
    .ok ({ w with is_active := false, current_balance := 0 },
         { session_id := w.session_id
           refunded_amount := remaining_balance
           total_spent := u64_wrapping_sub w.initial_balance remaining_balance
           timestamp := now })
  else .error .SessionClosed

/-- The `CloseSession` accounts struct validated before the handler:
`has_one = authority` together with `authority : Signer` rejects any
caller whose identity differs from the stored `authority` field
(Anchor's `ConstraintHasOne`, surfaced as `Unauthorized`), then the
handler runs. -/
def closeSessionWithAuth (caller : Nat) (w : SessionWallet) (now : Int) :
    Except ErrorCode (SessionWallet × SessionClosed) :=
  if caller = w.authority then close_session w now
  else .error .Unauthorized

/-- The `FundSession` accounts struct validated before the handler: the
`funder` is any signer — no constraint ties it to the record — so the
handler runs for every funder identity. -/
def fundSessionWithFunder (_funder : Nat) (w : SessionWallet)
    (amount : Nat) (now : Int) :
    Except ErrorCode (SessionWallet × FundsAdded) :=
  fund_session w amount now

/-- One balance-mutating call of the kinds claim C1 quantifies over,
with the clock value the call observes. -/
inductive Op where
  | fund (amount : Nat) (now : Int)
  | purchase (amount : Nat) (service_id : String) (now : Int)
deriving DecidableEq, Repr

/-- Apply one `Op` to the record, discarding the emitted event. -/
def applyOp (w : SessionWallet) : Op → Except ErrorCode SessionWallet
  | .fund a t => (fund_session w a t).map Prod.fst
  | .purchase a s t => (execute_purchase w a s t).map Prod.fst

/-- Run a sequence of calls left to right; the sequence succeeds only if
every call succeeds. -/
def runOps (w : SessionWallet) : List Op → Except ErrorCode SessionWallet
  | [] => .ok w
  | op :: rest =>
      match applyOp w op with
      | .error e => .error e
      | .ok w' => runOps w' rest

/-- Σ(funded): total amount of the `fund` calls in a sequence. -/
def fundedSum : List Op → Int
  | [] => 0
  | .fund a _ :: rest => (a : Int) + fundedSum rest
  | .purchase _ _ _ :: rest => fundedSum rest

/-- Σ(purchased): total amount of the `purchase` calls in a sequence. -/
def purchasedSum : List Op → Int
  | [] => 0
  | .fund _ _ :: rest => purchasedSum rest
  | .purchase a _ _ :: rest => (a : Int) + purchasedSum rest

/-- `SessionWallet::SIZE` exactly as the source writes it. -/
def SessionWallet.SIZE : Nat := 32 + 64 + 8 + 8 + 8 + 8 + 1 + 1

/-- The account space `InitializeSession` allocates:
`space = 8 + SessionWallet::SIZE`. -/
def initializeAllocatedSpace : Nat := 8 + SessionWallet.SIZE

/-- Bytes actually occupied by the serialized record as a function of
the byte length of `session_id`: the 8-byte account discriminator, the
32-byte `authority`, the borsh `String` encoding of `session_id`
(4-byte little-endian length prefix followed by the bytes), the two
8-byte timestamps, the two 8-byte balances, the 1-byte `is_active` and
the 1-byte `bump`. -/
def serializedRecordSize (session_id_bytes : Nat) : Nat :=
  8 + 32 + (4 + session_id_bytes) + 8 + 8 + 8 + 8 + 1 + 1

/-! ## Concrete records used to instantiate the theorems

`sampleActive` is the record reached from
`initialize_session 1 "s" 1000 0 255` by `fund_session 200` at time 1
and `execute_purchase 300 "svc" ` at time 2.  `preCloseWallet` is the
record `initialize_session 1 "s" 100 0 255` produces, and
`sampleClosed` is that record after `close_session`.
`overfundedWallet` is reached from `initialize_session 1 "s" 100 0 255`
by `fund_session 50` at time 1, so its `current_balance` (150) exceeds
its `initial_balance` (100). -/

/-- A reachable active record: balance 900 after funding 200 and
purchasing 300 on an initial 1000. -/
def sampleActive : SessionWallet :=
  { authority := 1, session_id := "s", created_at := 0, last_activity := 2,
    initial_balance := 1000, current_balance := 900, is_active := true,
    bump := 255 }

/-- A freshly initialized record with balance 100. -/
def preCloseWallet : SessionWallet :=
  { authority := 1, session_id := "s", created_at := 0, last_activity := 0,
    initial_balance := 100, current_balance := 100, is_active := true,
    bump := 255 }

/-- `preCloseWallet` after a successful `close_session`. -/
def sampleClosed : SessionWallet :=
  { authority := 1, session_id := "s", created_at := 0, last_activity := 0,
    initial_balance := 100, current_balance := 0, is_active := false,
    bump := 255 }

/-- A reachable active record whose balance exceeds its
`initial_balance` because of a funding top-up. -/
def overfundedWallet : SessionWallet :=
  { authority := 1, session_id := "s", created_at := 0, last_activity := 1,
    initial_balance := 100, current_balance := 150, is_active := true,
    bump := 255 }

/-- A record sitting at `u64::MAX`, one token away from overflow. -/
def maxedWallet : SessionWallet :=
  { authority := 1, session_id := "s", created_at := 0, last_activity := 0,
    initial_balance := 10, current_balance := 18446744073709551615,
    is_active := true, bump := 255 }

/-! ## Equation lemmas: each instruction as a case split on its guards -/

/-- `fund_session` succeeds exactly on an active session whose new
balance stays below `2 ^ 64`. -/
theorem fund_session_spec (w : SessionWallet) (a : Nat) (t : Int) :
    fund_session w a t =
      if w.is_active = true then
        if w.current_balance + a < U64.size then
          .ok ({ w with current_balance := w.current_balance + a, last_activity := t },
               { session_id := w.session_id, amount := a,
                 new_balance := w.current_balance + a, timestamp := t })
        else .error .Overflow
      else .error .SessionClosed := by
  unfold fund_session checked_add
  by_cases h : w.is_active <;> simp [h]
  by_cases h2 : w.current_balance + a < U64.size <;> simp [h2]

/-- `execute_purchase` succeeds exactly on an active session with
sufficient balance. -/
theorem execute_purchase_spec (w : SessionWallet) (a : Nat) (sid : String) (t : Int) :
    execute_purchase w a sid t =
      if w.is_active = true then
        if a ≤ w.current_balance then
          .ok ({ w with current_balance := w.current_balance - a, last_activity := t },
               { session_id := w.session_id, service_id := sid, amount := a,
                 remaining_balance := w.current_balance - a, timestamp := t })
        else .error .InsufficientBalance
      else .error .SessionClosed := by
  unfold execute_purchase checked_sub
  by_cases h : w.is_active <;> simp [h]
  by_cases h2 : a ≤ w.current_balance <;> simp [h2]

/-- `close_session` succeeds exactly on an active session. -/
theorem close_session_spec (w : SessionWallet) (t : Int) :
    close_session w t =
      if w.is_active = true then
        .ok ({ w with is_active := false, current_balance := 0 },
             { session_id := w.session_id, refunded_amount := w.current_balance,
               total_spent := u64_wrapping_sub w.initial_balance w.current_balance,
               timestamp := t })
      else .error .SessionClosed := by
  unfold close_session
  by_cases h : w.is_active <;> simp [h]

/-! ## Step lemmas for sequences of balance-mutating calls -/

/-- A successful `fund` step adds its amount to the balance and keeps
`initial_balance`. -/
theorem applyOp_fund_ok {w w1 : SessionWallet} {a : Nat} {t : Int}
    (h : applyOp w (.fund a t) = .ok w1) :
    w1.current_balance = w.current_balance + a ∧
    w1.initial_balance = w.initial_balance ∧ w1.is_active = w.is_active := by
  simp only [applyOp, fund_session_spec] at h
  by_cases h1 : w.is_active = true
  · rw [if_pos h1] at h
    by_cases h2 : w.current_balance + a < U64.size
    · rw [if_pos h2] at h
      simp only [Except.map] at h
      cases h
      simp [h1]
    · rw [if_neg h2] at h
      simp [Except.map] at h
  · rw [if_neg h1] at h
    simp [Except.map] at h

/-- A successful `purchase` step subtracts its amount (which the guard
bounds by the balance) and keeps `initial_balance`. -/
theorem applyOp_purchase_ok {w w1 : SessionWallet} {a : Nat} {s : String} {t : Int}
    (h : applyOp w (.purchase a s t) = .ok w1) :
    w1.current_balance = w.current_balance - a ∧ a ≤ w.current_balance ∧
    w1.initial_balance = w.initial_balance ∧ w1.is_active = w.is_active := by
  simp only [applyOp, execute_purchase_spec] at h
  by_cases h1 : w.is_active = true
  · rw [if_pos h1] at h
    by_cases h2 : a ≤ w.current_balance
    · rw [if_pos h2] at h
      simp only [Except.map] at h
      cases h
      simp [h1, h2]
    · rw [if_neg h2] at h
      simp [Except.map] at h
  · rw [if_neg h1] at h
    simp [Except.map] at h

/-- Every call on an inactive record fails with `SessionClosed`. -/
theorem applyOp_inactive {w : SessionWallet} (hw : w.is_active = false) (op : Op) :
    applyOp w op = .error .SessionClosed := by
  cases op <;>
    simp [applyOp, fund_session_spec, execute_purchase_spec, hw, Except.map]

/-- A successful sequence of calls reconciles the balance: final balance
plus Σ(purchased) equals starting balance plus Σ(funded), and
`initial_balance` is untouched. -/
theorem runOps_ok_balance {ops : List Op} {w w' : SessionWallet}
    (h : runOps w ops = .ok w') :
    (w'.current_balance : Int) + purchasedSum ops
        = (w.current_balance : Int) + fundedSum ops
    ∧ w'.initial_balance = w.initial_balance := by
  induction ops generalizing w with
  | nil =>
      simp only [runOps, Except.ok.injEq] at h
      subst h
      simp [fundedSum, purchasedSum]
  | cons op rest ih =>
      simp only [runOps] at h
      split at h
      · exact absurd h (by simp)
      next w1 hA =>
          have hrest := ih h
          cases op with
          | fund a t =>
              have hstep := applyOp_fund_ok hA
              simp only [fundedSum, purchasedSum]
              constructor
              · have := hrest.1
                rw [hstep.1] at this
                push_cast at this
                linarith
              · rw [hrest.2, hstep.2.1]
          | purchase a s t =>
              have hstep := applyOp_purchase_ok hA
              simp only [fundedSum, purchasedSum]
              constructor
              · have := hrest.1
                rw [hstep.1] at this
                rw [Nat.cast_sub hstep.2.1] at this
                linarith
              · rw [hrest.2, hstep.2.2.1]

/-- On an inactive record every nonempty sequence fails, so the only
successful run is the empty one, returning the record itself. -/
theorem runOps_inactive {w w'' : SessionWallet} (hw : w.is_active = false)
    {ops : List Op} (h : runOps w ops = .ok w'') : w'' = w := by
  cases ops with
  | nil =>
      simp only [runOps, Except.ok.injEq] at h
      exact h.symm
  | cons op rest =>
      simp only [runOps, applyOp_inactive hw] at h
      exact absurd h (by simp)

/-! ## Claims -/

/-- C1 (Conservation): for every sequence of successful `fund_session`
and `execute_purchase` calls on an active session initialized with
`initial_funding`, `current_balance` equals `initial_balance` plus the
sum of all funded amounts minus the sum of all purchased amounts, and
the `initial_balance` term is still the initial funding — no operation
introduces or destroys value.  Quantifying over every sequence covers
the balance after every intermediate call, each prefix being itself a
sequence. -/
theorem conservation_c1 (auth : Nat) (sid : String) (f : Nat) (t0 : Int)
    (b : Nat) (ops : List Op) (w' : SessionWallet)
    (h : runOps (initialize_session auth sid f t0 b).1 ops = .ok w') :
    (w'.current_balance : Int)
        = (w'.initial_balance : Int) + fundedSum ops - purchasedSum ops
    ∧ w'.initial_balance = f := by
  have hb := runOps_ok_balance h
  have h2 : w'.initial_balance = f := by
    simpa [initialize_session] using hb.2
  have h1 := hb.1
  simp only [initialize_session] at h1
  refine ⟨?_, h2⟩
  rw [h2]
  linarith

/-- Witness for C1 at the scenario of the specification: initialize
with 1000, fund 200, purchase 300; the final balance 900 reconciles
exactly. -/
theorem conservation_c1_witness :
    (sampleActive.current_balance : Int)
        = (sampleActive.initial_balance : Int)
            + fundedSum [Op.fund 200 1, Op.purchase 300 "svc" 2]
            - purchasedSum [Op.fund 200 1, Op.purchase 300 "svc" 2]
    ∧ sampleActive.initial_balance = 1000 :=
  conservation_c1 1 "s" 1000 0 255 [Op.fund 200 1, Op.purchase 300 "svc" 2]
    sampleActive rfl

/-- C2 (Terminal closed state): after a successful `close_session` the
record is inactive with zero balance, every subsequent `fund_session`,
`execute_purchase` or `close_session` call fails with `SessionClosed`
(a failed instruction commits no state, so the record is unchanged),
and no sequence of calls ever produces a successor state other than
the closed record itself. -/
theorem close_terminal_c2 (w w' : SessionWallet) (ev : SessionClosed)
    (now t : Int) (a : Nat) (sid : String) (ops : List Op)
    (w'' : SessionWallet)
    (h : close_session w now = .ok (w', ev)) :
    w'.is_active = false ∧ w'.current_balance = 0 ∧
    fund_session w' a t = .error .SessionClosed ∧
    execute_purchase w' a sid t = .error .SessionClosed ∧
    close_session w' t = .error .SessionClosed ∧
    (runOps w' ops = .ok w'' → w'' = w') := by
  rw [close_session_spec] at h
  by_cases hw : w.is_active = true
  · rw [if_pos hw] at h
    simp only [Except.ok.injEq, Prod.mk.injEq] at h
    obtain ⟨h1, -⟩ := h
    subst h1
    refine ⟨rfl, rfl, ?_, ?_, ?_, ?_⟩
    · rw [fund_session_spec]; simp
    · rw [execute_purchase_spec]; simp
    · rw [close_session_spec]; simp
    · intro hr
      exact runOps_inactive rfl hr
  · rw [if_neg hw] at h
    exact absurd h (by simp)

/-- Witness for C2: closing the freshly initialized 100-balance record
yields `sampleClosed`, on which every further call fails with
`SessionClosed`. -/
theorem close_terminal_c2_witness :
    sampleClosed.is_active = false ∧ sampleClosed.current_balance = 0 ∧
    fund_session sampleClosed 3 9 = .error .SessionClosed ∧
    execute_purchase sampleClosed 3 "svc" 9 = .error .SessionClosed ∧
    close_session sampleClosed 9 = .error .SessionClosed ∧
    (runOps sampleClosed [Op.fund 3 9] = .ok sampleClosed →
        sampleClosed = sampleClosed) :=
  close_terminal_c2 preCloseWallet sampleClosed
    { session_id := "s", refunded_amount := 100, total_spent := 0,
      timestamp := 5 }
    5 9 3 "svc" [Op.fund 3 9] sampleClosed rfl

/-- C3 (code bug): the claim says `close_session` computes the emitted
`total_spent` with checked arithmetic that is never allowed to wrap,
for every reachable active state including those where
`current_balance` exceeds `initial_balance`.  The source (line 177)
uses the raw subtraction `initial_balance - remaining_balance`: on the
reachable record with balance 150 and initial 100 — obtained from
`initialize_session` with 100 followed by `fund_session 50` — the
close succeeds and emits the wrapped value `2 ^ 64 - 50` instead of
failing or reporting a reconciled spend. -/
theorem close_total_spent_wraps_c3 :
    fund_session (initialize_session 1 "s" 100 0 255).1 50 1
      = .ok (overfundedWallet,
             { session_id := "s", amount := 50, new_balance := 150,
               timestamp := 1 })
    ∧ close_session overfundedWallet 2
      = .ok ({ overfundedWallet with is_active := false, current_balance := 0 },
             { session_id := "s", refunded_amount := 150,
               total_spent := 18446744073709551566, timestamp := 2 })
    ∧ (18446744073709551566 : Int) ≠ (100 : Int) - 150 :=
  ⟨rfl, rfl, by decide⟩

/-- C4 (Fund overflow safety): on an active session, `fund_session`
fails with `Overflow` whenever the new balance would reach `2 ^ 64`
(committing no state, so the record is unchanged) and otherwise
succeeds with `current_balance` increased by exactly `amount`. -/
theorem fund_overflow_c4 (w : SessionWallet) (a : Nat) (t : Int)
    (hact : w.is_active = true) :
    (U64.size ≤ w.current_balance + a →
        fund_session w a t = .error .Overflow) ∧
    (w.current_balance + a < U64.size →
        fund_session w a t =
          .ok ({ w with current_balance := w.current_balance + a, last_activity := t },
               { session_id := w.session_id, amount := a,
                 new_balance := w.current_balance + a, timestamp := t })) := by
  constructor
  · intro hov
    rw [fund_session_spec, if_pos hact, if_neg (by omega)]
  · intro hlt
    rw [fund_session_spec, if_pos hact, if_pos hlt]

/-- Witness for C4: funding 1 token onto a balance of `u64::MAX` fails
with `Overflow`, and funding 1 token onto the 900-balance record
succeeds. -/
theorem fund_overflow_c4_witness :
    fund_session maxedWallet 1 7 = .error .Overflow ∧
    fund_session sampleActive 1 7 =
      .ok ({ sampleActive with current_balance := 901, last_activity := 7 },
           { session_id := "s", amount := 1, new_balance := 901,
             timestamp := 7 }) :=
  ⟨(fund_overflow_c4 maxedWallet 1 7 rfl).1 (by decide),
   (fund_overflow_c4 sampleActive 1 7 rfl).2 (by decide)⟩

/-- C5 (Purchase contract): `execute_purchase` fails with
`SessionClosed` when the session is inactive, fails with
`InsufficientBalance` when the balance is below the amount (both
failures commit no state), and otherwise decreases `current_balance`
by exactly `amount` and emits `PurchaseExecuted` whose
`remaining_balance` is the new `current_balance`. -/
theorem purchase_contract_c5 (w : SessionWallet) (a : Nat) (sid : String)
    (t : Int) :
    (w.is_active = false → execute_purchase w a sid t = .error .SessionClosed) ∧
    (w.is_active = true → w.current_balance < a →
        execute_purchase w a sid t = .error .InsufficientBalance) ∧
    (w.is_active = true → a ≤ w.current_balance →
        execute_purchase w a sid t =
          .ok ({ w with current_balance := w.current_balance - a, last_activity := t },
               { session_id := w.session_id, service_id := sid, amount := a,
                 remaining_balance := w.current_balance - a,
                 timestamp := t })) := by
  refine ⟨?_, ?_, ?_⟩
  · intro hw
    rw [execute_purchase_spec, if_neg (by simp [hw])]
  · intro hw hlt
    rw [execute_purchase_spec, if_pos hw, if_neg (by omega)]
  · intro hw hle
    rw [execute_purchase_spec, if_pos hw, if_pos hle]

/-- Witness for C5: a purchase on the closed record fails
`SessionClosed`; a 1000-token purchase on the 900-balance record fails
`InsufficientBalance`; a 300-token purchase on it succeeds leaving
600. -/
theorem purchase_contract_c5_witness :
    execute_purchase sampleClosed 3 "svc-a" 9 = .error .SessionClosed ∧
    execute_purchase sampleActive 1000 "svc-b" 9 = .error .InsufficientBalance ∧
    execute_purchase sampleActive 300 "svc-c" 9 =
      .ok ({ sampleActive with current_balance := 600, last_activity := 9 },
           { session_id := "s", service_id := "svc-c", amount := 300,
             remaining_balance := 600, timestamp := 9 }) :=
  ⟨(purchase_contract_c5 sampleClosed 3 "svc-a" 9).1 rfl,
   (purchase_contract_c5 sampleActive 1000 "svc-b" 9).2.1 rfl (by decide),
   (purchase_contract_c5 sampleActive 300 "svc-c" 9).2.2 rfl (by decide)⟩

/-- C6 (Authority scoping): `close_session` invoked through its
accounts struct by any caller other than the stored `authority` fails
with `Unauthorized` (committing no state), while `fund_session`
invoked by an arbitrary funder identity on an active session with no
overflow succeeds. -/
theorem authority_scoping_c6 (caller funder : Nat) (w : SessionWallet)
    (a : Nat) (t : Int) (hne : caller ≠ w.authority)
    (hact : w.is_active = true) (hov : w.current_balance + a < U64.size) :
    closeSessionWithAuth caller w t = .error .Unauthorized ∧
    fundSessionWithFunder funder w a t =
      .ok ({ w with current_balance := w.current_balance + a, last_activity := t },
           { session_id := w.session_id, amount := a,
             new_balance := w.current_balance + a, timestamp := t }) := by
  constructor
  · unfold closeSessionWithAuth
    rw [if_neg hne]
  · unfold fundSessionWithFunder
    rw [fund_session_spec, if_pos hact, if_pos hov]

/-- Witness for C6: caller 2 is not the stored authority 1, so closing
fails `Unauthorized`; funder 42 tops the same record up by 10. -/
theorem authority_scoping_c6_witness :
    closeSessionWithAuth 2 sampleActive 7 = .error .Unauthorized ∧
    fundSessionWithFunder 42 sampleActive 10 7 =
      .ok ({ sampleActive with current_balance := 910, last_activity := 7 },
           { session_id := "s", amount := 10, new_balance := 910,
             timestamp := 7 }) :=
  authority_scoping_c6 2 42 sampleActive 10 7 (by decide) rfl (by decide)

/-- C7 counterexample: the claim says every balance-mutating operation,
`close_session` included, updates `last_activity` to the clock's
current time on success.  Closing `sampleActive` (whose
`last_activity` is 2) at clock time 9 succeeds but leaves
`last_activity` at 2, not 9. -/
theorem last_activity_c7_counterexample :
    close_session sampleActive 9 =
      .ok ({ sampleActive with is_active := false, current_balance := 0 },
           { session_id := "s", refunded_amount := 900, total_spent := 100,
             timestamp := 9 })
    ∧ ({ sampleActive with is_active := false, current_balance := 0 } : SessionWallet).last_activity = 2
    ∧ (2 : Int) ≠ 9 :=
  ⟨rfl, rfl, by decide⟩

/-- C7 amended: `fund_session` and `execute_purchase` update
`last_activity` to the clock's current time when they succeed;
`close_session` mutates `current_balance` to 0 but leaves
`last_activity` unchanged. -/
theorem last_activity_c7_amended (w wf wp wc : SessionWallet)
    (evF : FundsAdded) (evP : PurchaseExecuted) (evC : SessionClosed)
    (a : Nat) (sid : String) (t : Int) :
    (fund_session w a t = .ok (wf, evF) → wf.last_activity = t) ∧
    (execute_purchase w a sid t = .ok (wp, evP) → wp.last_activity = t) ∧
    (close_session w t = .ok (wc, evC) →
        wc.last_activity = w.last_activity ∧ wc.current_balance = 0) := by
  refine ⟨?_, ?_, ?_⟩ <;> intro h
  · rw [fund_session_spec] at h
    by_cases h1 : w.is_active = true
    · rw [if_pos h1] at h
      by_cases h2 : w.current_balance + a < U64.size
      · rw [if_pos h2] at h
        simp only [Except.ok.injEq, Prod.mk.injEq] at h
        rw [← h.1]
      · rw [if_neg h2] at h
        exact absurd h (by simp)
    · rw [if_neg h1] at h
      exact absurd h (by simp)
  · rw [execute_purchase_spec] at h
    by_cases h1 : w.is_active = true
    · rw [if_pos h1] at h
      by_cases h2 : a ≤ w.current_balance
      · rw [if_pos h2] at h
        simp only [Except.ok.injEq, Prod.mk.injEq] at h
        rw [← h.1]
      · rw [if_neg h2] at h
        exact absurd h (by simp)
    · rw [if_neg h1] at h
      exact absurd h (by simp)
  · rw [close_session_spec] at h
    by_cases h1 : w.is_active = true
    · rw [if_pos h1] at h
      simp only [Except.ok.injEq, Prod.mk.injEq] at h
      rw [← h.1]
      exact ⟨rfl, rfl⟩
    · rw [if_neg h1] at h
      exact absurd h (by simp)

/-- Witness for the amended C7 on `sampleActive`: funding and
purchasing at clock time 9 stamp `last_activity` with 9, closing keeps
it at 2. -/
theorem last_activity_c7_amended_witness :
    ({ sampleActive with current_balance := 1200, last_activity := 9 } : SessionWallet).last_activity = 9 ∧
    ({ sampleActive with current_balance := 600, last_activity := 9 } : SessionWallet).last_activity = 9 ∧
    (({ sampleActive with is_active := false, current_balance := 0 } : SessionWallet).last_activity
          = sampleActive.last_activity ∧
     ({ sampleActive with is_active := false, current_balance := 0 } : SessionWallet).current_balance = 0) :=
  ⟨(last_activity_c7_amended sampleActive
      { sampleActive with current_balance := 1200, last_activity := 9 }
      { sampleActive with current_balance := 600, last_activity := 9 }
      { sampleActive with is_active := false, current_balance := 0 }
      { session_id := "s", amount := 300, new_balance := 1200, timestamp := 9 }
      { session_id := "s", service_id := "svc", amount := 300,
        remaining_balance := 600, timestamp := 9 }
      { session_id := "s", refunded_amount := 900, total_spent := 100,
        timestamp := 9 }
      300 "svc" 9).1 rfl,
   (last_activity_c7_amended sampleActive
      { sampleActive with current_balance := 1200, last_activity := 9 }
      { sampleActive with current_balance := 600, last_activity := 9 }
      { sampleActive with is_active := false, current_balance := 0 }
      { session_id := "s", amount := 300, new_balance := 1200, timestamp := 9 }
      { session_id := "s", service_id := "svc", amount := 300,
        remaining_balance := 600, timestamp := 9 }
      { session_id := "s", refunded_amount := 900, total_spent := 100,
        timestamp := 9 }
      300 "svc" 9).2.1 rfl,
   (last_activity_c7_amended sampleActive
      { sampleActive with current_balance := 1200, last_activity := 9 }
      { sampleActive with current_balance := 600, last_activity := 9 }
      { sampleActive with is_active := false, current_balance := 0 }
      { session_id := "s", amount := 300, new_balance := 1200, timestamp := 9 }
      { session_id := "s", service_id := "svc", amount := 300,
        remaining_balance := 600, timestamp := 9 }
      { session_id := "s", refunded_amount := 900, total_spent := 100,
        timestamp := 9 }
      300 "svc" 9).2.2 rfl⟩

/-- C8 (Immutability frame): every successful `fund_session`,
`execute_purchase` and authority-validated `close_session` leaves
`authority`, `session_id`, `created_at`, `initial_balance` and `bump`
unchanged; a failing call commits no state at all, so the frame holds
for failures as well. -/
theorem frame_immutable_c8 (w wf wp wc : SessionWallet)
    (evF : FundsAdded) (evP : PurchaseExecuted) (evC : SessionClosed)
    (caller a : Nat) (sid : String) (t : Int) :
    (fund_session w a t = .ok (wf, evF) →
        wf.authority = w.authority ∧ wf.session_id = w.session_id ∧
        wf.created_at = w.created_at ∧
        wf.initial_balance = w.initial_balance ∧ wf.bump = w.bump) ∧
    (execute_purchase w a sid t = .ok (wp, evP) →
        wp.authority = w.authority ∧ wp.session_id = w.session_id ∧
        wp.created_at = w.created_at ∧
        wp.initial_balance = w.initial_balance ∧ wp.bump = w.bump) ∧
    (closeSessionWithAuth caller w t = .ok (wc, evC) →
        wc.authority = w.authority ∧ wc.session_id = w.session_id ∧
        wc.created_at = w.created_at ∧
        wc.initial_balance = w.initial_balance ∧ wc.bump = w.bump) := by
  refine ⟨?_, ?_, ?_⟩ <;> intro h
  · rw [fund_session_spec] at h
    by_cases h1 : w.is_active = true
    · rw [if_pos h1] at h
      by_cases h2 : w.current_balance + a < U64.size
      · rw [if_pos h2] at h
        simp only [Except.ok.injEq, Prod.mk.injEq] at h
        rw [← h.1]
        exact ⟨rfl, rfl, rfl, rfl, rfl⟩
      · rw [if_neg h2] at h
        exact absurd h (by simp)
    · rw [if_neg h1] at h
      exact absurd h (by simp)
  · rw [execute_purchase_spec] at h
    by_cases h1 : w.is_active = true
    · rw [if_pos h1] at h
      by_cases h2 : a ≤ w.current_balance
      · rw [if_pos h2] at h
        simp only [Except.ok.injEq, Prod.mk.injEq] at h
        rw [← h.1]
        exact ⟨rfl, rfl, rfl, rfl, rfl⟩
      · rw [if_neg h2] at h
        exact absurd h (by simp)
    · rw [if_neg h1] at h
      exact absurd h (by simp)
  · unfold closeSessionWithAuth at h
    by_cases hc : caller = w.authority
    · rw [if_pos hc, close_session_spec] at h
      by_cases h1 : w.is_active = true
      · rw [if_pos h1] at h
        simp only [Except.ok.injEq, Prod.mk.injEq] at h
        rw [← h.1]
        exact ⟨rfl, rfl, rfl, rfl, rfl⟩
      · rw [if_neg h1] at h
        exact absurd h (by simp)
    · rw [if_neg hc] at h
      exact absurd h (by simp)

/-- Witness for C8 on `sampleActive`: funding 300, purchasing 300 and
the authority's close all preserve the five immutable fields. -/
theorem frame_immutable_c8_witness :
    (({ sampleActive with current_balance := 1200, last_activity := 7 } : SessionWallet).authority = sampleActive.authority ∧
     ({ sampleActive with current_balance := 1200, last_activity := 7 } : SessionWallet).session_id = sampleActive.session_id ∧
     ({ sampleActive with current_balance := 1200, last_activity := 7 } : SessionWallet).created_at = sampleActive.created_at ∧
     ({ sampleActive with current_balance := 1200, last_activity := 7 } : SessionWallet).initial_balance = sampleActive.initial_balance ∧
     ({ sampleActive with current_balance := 1200, last_activity := 7 } : SessionWallet).bump = sampleActive.bump) ∧
    (({ sampleActive with current_balance := 600, last_activity := 7 } : SessionWallet).authority = sampleActive.authority ∧
     ({ sampleActive with current_balance := 600, last_activity := 7 } : SessionWallet).session_id = sampleActive.session_id ∧
     ({ sampleActive with current_balance := 600, last_activity := 7 } : SessionWallet).created_at = sampleActive.created_at ∧
     ({ sampleActive with current_balance := 600, last_activity := 7 } : SessionWallet).initial_balance = sampleActive.initial_balance ∧
     ({ sampleActive with current_balance := 600, last_activity := 7 } : SessionWallet).bump = sampleActive.bump) ∧
    (({ sampleActive with is_active := false, current_balance := 0 } : SessionWallet).authority = sampleActive.authority ∧
     ({ sampleActive with is_active := false, current_balance := 0 } : SessionWallet).session_id = sampleActive.session_id ∧
     ({ sampleActive with is_active := false, current_balance := 0 } : SessionWallet).created_at = sampleActive.created_at ∧
     ({ sampleActive with is_active := false, current_balance := 0 } : SessionWallet).initial_balance = sampleActive.initial_balance ∧
     ({ sampleActive with is_active := false, current_balance := 0 } : SessionWallet).bump = sampleActive.bump) :=
  ⟨(frame_immutable_c8 sampleActive
      { sampleActive with current_balance := 1200, last_activity := 7 }
      { sampleActive with current_balance := 600, last_activity := 7 }
      { sampleActive with is_active := false, current_balance := 0 }
      { session_id := "s", amount := 300, new_balance := 1200, timestamp := 7 }
      { session_id := "s", service_id := "svc", amount := 300,
        remaining_balance := 600, timestamp := 7 }
      { session_id := "s", refunded_amount := 900, total_spent := 100,
        timestamp := 7 }
      1 300 "svc" 7).1 rfl,
   (frame_immutable_c8 sampleActive
      { sampleActive with current_balance := 1200, last_activity := 7 }
      { sampleActive with current_balance := 600, last_activity := 7 }
      { sampleActive with is_active := false, current_balance := 0 }
      { session_id := "s", amount := 300, new_balance := 1200, timestamp := 7 }
      { session_id := "s", service_id := "svc", amount := 300,
        remaining_balance := 600, timestamp := 7 }
      { session_id := "s", refunded_amount := 900, total_spent := 100,
        timestamp := 7 }
      1 300 "svc" 7).2.1 rfl,
   (frame_immutable_c8 sampleActive
      { sampleActive with current_balance := 1200, last_activity := 7 }
      { sampleActive with current_balance := 600, last_activity := 7 }
      { sampleActive with is_active := false, current_balance := 0 }
      { session_id := "s", amount := 300, new_balance := 1200, timestamp := 7 }
      { session_id := "s", service_id := "svc", amount := 300,
        remaining_balance := 600, timestamp := 7 }
      { session_id := "s", refunded_amount := 900, total_spent := 100,
        timestamp := 7 }
      1 300 "svc" 7).2.2 rfl⟩

/-- C9 (code bug): the claim says every `session_id` of at most 64
bytes yields a record fitting in the allocated
`8 + SessionWallet::SIZE` bytes.  The `SIZE` constant budgets 64 bytes
for the string but omits its 4-byte serialized length prefix: a
64-byte `session_id` needs 142 bytes while only 138 are allocated
(only ids of at most 60 bytes fit). -/
theorem session_id_capacity_c9 :
    serializedRecordSize 64 = 142 ∧ initializeAllocatedSpace = 138 ∧
    ¬ serializedRecordSize 64 ≤ initializeAllocatedSpace ∧
    serializedRecordSize 60 ≤ initializeAllocatedSpace := by decide

/-- C10 (Unreachable underflow branch): the balance guard in
`execute_purchase` precedes the checked subtraction, so the
subtraction never returns `None` on the path that reaches it and the
`Overflow` error branch is unreachable: no call of `execute_purchase`,
on any record, ever fails with `Overflow`. -/
theorem purchase_no_overflow_c10 (w : SessionWallet) (a : Nat)
    (sid : String) (t : Int) :
    execute_purchase w a sid t ≠ .error .Overflow := by
  rw [execute_purchase_spec]
  by_cases h1 : w.is_active = true
  · rw [if_pos h1]
    by_cases h2 : a ≤ w.current_balance
    · rw [if_pos h2]
      simp
    · rw [if_neg h2]
      simp
  · rw [if_neg h1]
    simp
